import Mathlib

/-!
Verification development for the p2plending repository.

The definitions below are shallow embeddings of the Python source:
machine floats are modelled as exact rationals, Python `round(x, 0)`
(banker's rounding) as `roundHE`, Python `int(x)` (truncation toward
zero) as `pyTrunc`, dates as integer day numbers, and database rows as
explicit record state threaded through the functions.
-/

set_option maxRecDepth 4000

/-- Python `round(x, 0)`: round half to even (banker's rounding). -/
def roundHE (x : ℚ) : ℤ :=
  if x - ⌊x⌋ < 1/2 then ⌊x⌋
  else if 1/2 < x - ⌊x⌋ then ⌊x⌋ + 1
  else if Even ⌊x⌋ then ⌊x⌋ else ⌊x⌋ + 1

/-- Python `int(x)`: truncation toward zero. -/
def pyTrunc (x : ℚ) : ℤ :=
  if 0 ≤ x then ⌊x⌋ else -⌊-x⌋

/-- One row of the JSON schedule produced by `calculate_loan_schedule`
(src/ai_agents/agents/contract_generator_new.py).  The Python code stores
`round(_, 0)` values, which are integer-valued floats; we store them as `ℤ`. -/
structure SchedRow where
  month : ℕ
  principal_payment : ℤ
  interest_payment : ℤ
  total_payment : ℤ
  remaining_balance : ℤ
deriving DecidableEq, Repr

/-- The data object of the JSON returned by `calculate_loan_schedule`. -/
structure SchedOut where
  principal : ℚ
  interest_rate : ℚ
  duration_months : ℤ
  payment_method : String
  total_interest : ℤ
  total_payment : ℤ
  schedule : List SchedRow
deriving DecidableEq, Repr

def zeroDivisionError : String := "ZeroDivisionError"

/-- The `for month in range(1, duration_months + 1)` loop of the
EQUAL_PRINCIPAL branch: fixed principal payment, decreasing interest.
Returns (rows, accumulated unrounded interest, accumulated unrounded payment). -/
def epLoop (principal_payment monthly_rate : ℚ) :
    ℕ → ℕ → ℚ → List SchedRow × ℚ × ℚ
  | 0, _, _ => ([], 0, 0)
  | k + 1, month, remaining =>
    let interest := remaining * monthly_rate
    let payment := principal_payment + interest
    let remaining2 := remaining - principal_payment
    let rest := epLoop principal_payment monthly_rate k (month + 1) remaining2
    (⟨month, roundHE principal_payment, roundHE interest, roundHE payment,
      max 0 (roundHE remaining2)⟩ :: rest.1,
     interest + rest.2.1, payment + rest.2.2)

/-- The loop of the EQUAL_PAYMENT branch: fixed monthly payment,
principal portion = payment − interest on the remaining balance. -/
def apLoop (monthly_payment monthly_rate : ℚ) :
    ℕ → ℕ → ℚ → List SchedRow × ℚ × ℚ
  | 0, _, _ => ([], 0, 0)
  | k + 1, month, remaining =>
    let interest := remaining * monthly_rate
    let principal_payment := monthly_payment - interest
    let remaining2 := remaining - principal_payment
    let rest := apLoop monthly_payment monthly_rate k (month + 1) remaining2
    (⟨month, roundHE principal_payment, roundHE interest, roundHE monthly_payment,
      max 0 (roundHE remaining2)⟩ :: rest.1,
     interest + rest.2.1, monthly_payment + rest.2.2)

/-- `calculate_loan_schedule(principal, interest_rate, duration_months,
payment_method)` from src/ai_agents/agents/contract_generator_new.py.
The Python function performs no input validation; the only failure it can
produce is a `ZeroDivisionError` raised by `principal / duration_months`
(when `duration_months == 0`), by the annuity denominator
`(1 + r) ** n - 1` being zero, or by `0.0 ** n` with negative `n`.
Any `payment_method` other than "EQUAL_PAYMENT" takes the
EQUAL_PRINCIPAL branch.  `range(1, n + 1)` iterates `max 0 n` times. -/
def calculate_loan_schedule (principal interest_rate : ℚ) (duration_months : ℤ)
    (payment_method : String) : Except String SchedOut :=
  let monthly_rate := interest_rate / 100 / 12
  if payment_method = "EQUAL_PAYMENT" then
    if 0 < monthly_rate then
      if 1 + monthly_rate = 0 ∧ duration_months < 0 then .error zeroDivisionError
      else if (1 + monthly_rate) ^ duration_months - 1 = 0 then .error zeroDivisionError
      else
        let monthly_payment := principal * (monthly_rate * (1 + monthly_rate) ^ duration_months)
            / ((1 + monthly_rate) ^ duration_months - 1)
        let result := apLoop monthly_payment monthly_rate duration_months.toNat 1 principal
        .ok ⟨principal, interest_rate, duration_months, payment_method,
             roundHE result.2.1, roundHE result.2.2, result.1⟩
    else
      if duration_months = 0 then .error zeroDivisionError
      else
        let monthly_payment := principal / (duration_months : ℚ)
        let result := apLoop monthly_payment monthly_rate duration_months.toNat 1 principal
        .ok ⟨principal, interest_rate, duration_months, payment_method,
             roundHE result.2.1, roundHE result.2.2, result.1⟩
  else
    if duration_months = 0 then .error zeroDivisionError
    else
      let principal_payment := principal / (duration_months : ℚ)
      let result := epLoop principal_payment monthly_rate duration_months.toNat 1 principal
      .ok ⟨principal, interest_rate, duration_months, payment_method,
           roundHE result.2.1, roundHE result.2.2, result.1⟩

/-- The schedule list of a `calculate_loan_schedule` result (empty on error). -/
def clsSchedule (r : Except String SchedOut) : List SchedRow :=
  match r with
  | .ok o => o.schedule
  | .error _ => []

/-- Sum of the (rounded, as returned) `principal_payment` entries. -/
def sumPP (rows : List SchedRow) : ℤ :=
  (rows.map SchedRow.principal_payment).sum

/-- Banker's rounding moves a value by at most one half. -/
lemma roundHE_abs_sub_le (x : ℚ) : |(roundHE x : ℚ) - x| ≤ 1/2 := by
  have h0 : (⌊x⌋ : ℚ) ≤ x := Int.floor_le x
  have h1 : x < ⌊x⌋ + 1 := Int.lt_floor_add_one x
  unfold roundHE
  split_ifs with hc1 hc2 hc3 <;> rw [abs_le] <;> constructor <;> push_cast <;> linarith

lemma sumPP_cons (a : SchedRow) (l : List SchedRow) :
    sumPP (a :: l) = a.principal_payment + sumPP l := by
  simp [sumPP]

lemma epLoop_map_pp (pp r : ℚ) (k : ℕ) : ∀ (m : ℕ) (rem : ℚ),
    ((epLoop pp r k m rem).1.map SchedRow.principal_payment) =
      List.replicate k (roundHE pp) := by
  induction k with
  | zero => intro m rem; rfl
  | succ k ih => intro m rem; simp [epLoop, ih, List.replicate_succ]

lemma epLoop_length (pp r : ℚ) (k : ℕ) : ∀ (m : ℕ) (rem : ℚ),
    (epLoop pp r k m rem).1.length = k := by
  induction k with
  | zero => intro m rem; rfl
  | succ k ih => intro m rem; simp [epLoop, ih]

lemma apLoop_length (pay r : ℚ) (k : ℕ) : ∀ (m : ℕ) (rem : ℚ),
    (apLoop pay r k m rem).1.length = k := by
  induction k with
  | zero => intro m rem; rfl
  | succ k ih => intro m rem; simp [apLoop, ih]

lemma sumPP_epLoop (pp r : ℚ) (k m : ℕ) (rem : ℚ) :
    sumPP (epLoop pp r k m rem).1 = k * roundHE pp := by
  simp [sumPP, epLoop_map_pp, List.sum_replicate, nsmul_eq_mul]

/-- The remaining balance after `k` iterations of the EQUAL_PAYMENT loop:
each step sends `rem` to `rem * (1 + r) - pay`. -/
def apRem (pay r : ℚ) : ℕ → ℚ → ℚ
  | 0, rem => rem
  | k + 1, rem => apRem pay r k (rem * (1 + r) - pay)

/-- The rounded principal payments of the EQUAL_PAYMENT loop sum to the
principal actually amortised (`rem - apRem …`) up to one half per row. -/
lemma apLoop_sumPP_bound (pay r : ℚ) (k : ℕ) : ∀ (m : ℕ) (rem : ℚ),
    |(sumPP (apLoop pay r k m rem).1 : ℚ) - (rem - apRem pay r k rem)| ≤ k / 2 := by
  induction k with
  | zero => intro m rem; simp [apLoop, apRem, sumPP]
  | succ k ih =>
    intro m rem
    have h1 := ih (m + 1) (rem - (pay - rem * r))
    have h2 := roundHE_abs_sub_le (pay - rem * r)
    have hstep : rem - (pay - rem * r) = rem * (1 + r) - pay := by ring
    have harem : apRem pay r (k + 1) rem = apRem pay r k (rem - (pay - rem * r)) := by
      rw [hstep]; rfl
    have hgoal : (sumPP (apLoop pay r (k + 1) m rem).1 : ℚ) - (rem - apRem pay r (k + 1) rem)
        = ((roundHE (pay - rem * r) : ℚ) - (pay - rem * r)) +
          ((sumPP (apLoop pay r k (m + 1) (rem - (pay - rem * r))).1 : ℚ) -
            ((rem - (pay - rem * r)) - apRem pay r k (rem - (pay - rem * r)))) := by
      rw [show apLoop pay r (k + 1) m rem =
        (⟨m, roundHE (pay - rem * r), roundHE (rem * r), roundHE pay,
          max 0 (roundHE (rem - (pay - rem * r)))⟩ ::
            (apLoop pay r k (m + 1) (rem - (pay - rem * r))).1,
          rem * r + (apLoop pay r k (m + 1) (rem - (pay - rem * r))).2.1,
          pay + (apLoop pay r k (m + 1) (rem - (pay - rem * r))).2.2) from rfl]
      rw [sumPP_cons, harem]
      push_cast
      ring
    rw [hgoal]
    refine le_trans (abs_add _ _) ?_
    push_cast
    linarith

lemma apRem_closed (pay r : ℚ) (hr : r ≠ 0) (k : ℕ) : ∀ rem,
    apRem pay r k rem = rem * (1 + r) ^ k - pay * ((1 + r) ^ k - 1) / r := by
  induction k with
  | zero => intro rem; simp [apRem]
  | succ k ih =>
    intro rem
    rw [apRem, ih]
    field_simp
    ring

lemma apRem_zero_rate (pay : ℚ) (k : ℕ) : ∀ rem,
    apRem pay 0 k rem = rem - k * pay := by
  induction k with
  | zero => intro rem; simp [apRem]
  | succ k ih => intro rem; rw [apRem, ih]; push_cast; ring

/-- Branch lemma: any payment method other than "EQUAL_PAYMENT" takes the
EQUAL_PRINCIPAL branch, which succeeds whenever the months are nonzero. -/
lemma cls_ep_eq (P r : ℚ) (n : ℤ) (m : String)
    (hm : m ≠ "EQUAL_PAYMENT") (hn : n ≠ 0) :
    calculate_loan_schedule P r n m =
      .ok ⟨P, r, n, m,
        roundHE (epLoop (P / (n : ℚ)) (r / 100 / 12) n.toNat 1 P).2.1,
        roundHE (epLoop (P / (n : ℚ)) (r / 100 / 12) n.toNat 1 P).2.2,
        (epLoop (P / (n : ℚ)) (r / 100 / 12) n.toNat 1 P).1⟩ := by
  simp [calculate_loan_schedule, hm, hn]

/-- Branch lemma: EQUAL_PAYMENT with a nonpositive monthly rate divides the
principal evenly, succeeding whenever the months are nonzero. -/
lemma cls_eqpay_zero_rate (P r : ℚ) (n : ℤ)
    (hr : ¬ 0 < r / 100 / 12) (hn : n ≠ 0) :
    calculate_loan_schedule P r n "EQUAL_PAYMENT" =
      .ok ⟨P, r, n, "EQUAL_PAYMENT",
        roundHE (apLoop (P / (n : ℚ)) (r / 100 / 12) n.toNat 1 P).2.1,
        roundHE (apLoop (P / (n : ℚ)) (r / 100 / 12) n.toNat 1 P).2.2,
        (apLoop (P / (n : ℚ)) (r / 100 / 12) n.toNat 1 P).1⟩ := by
  simp [calculate_loan_schedule, hr, hn]

/-- Branch lemma: EQUAL_PAYMENT with a positive monthly rate and nonzero
annuity denominator uses the annuity formula. -/
lemma cls_eqpay_pos (P r : ℚ) (n : ℤ)
    (hr : 0 < r / 100 / 12)
    (hzero : ¬ (1 + r / 100 / 12 = 0 ∧ n < 0))
    (hd : (1 + r / 100 / 12) ^ n - 1 ≠ 0) :
    calculate_loan_schedule P r n "EQUAL_PAYMENT" =
      .ok ⟨P, r, n, "EQUAL_PAYMENT",
        roundHE (apLoop (P * (r / 100 / 12 * (1 + r / 100 / 12) ^ n)
            / ((1 + r / 100 / 12) ^ n - 1)) (r / 100 / 12) n.toNat 1 P).2.1,
        roundHE (apLoop (P * (r / 100 / 12 * (1 + r / 100 / 12) ^ n)
            / ((1 + r / 100 / 12) ^ n - 1)) (r / 100 / 12) n.toNat 1 P).2.2,
        (apLoop (P * (r / 100 / 12 * (1 + r / 100 / 12) ^ n)
            / ((1 + r / 100 / 12) ^ n - 1)) (r / 100 / 12) n.toNat 1 P).1⟩ := by
  simp [calculate_loan_schedule, hr, hzero, hd]

/-- C1 (amended): for every valid amortization input (principal > 0,
rate ≥ 0, months ≥ 1, either payment method), `calculate_loan_schedule`
succeeds and the sum of the rounded `principal_payment` entries of the
returned schedule differs from the input principal by at most months/2
currency units.  (The per-installment rounding errors accumulate, so the
claimed one-unit tolerance does not hold; see the counterexample.) -/
theorem amortization_principal_sum_bounded (P rate : ℚ) (n : ℤ) (method : String)
    (hP : 0 < P) (hrate : 0 ≤ rate) (hn : 1 ≤ n)
    (hm : method = "EQUAL_PRINCIPAL" ∨ method = "EQUAL_PAYMENT") :
    (calculate_loan_schedule P rate n method).isOk = true ∧
    |(sumPP (clsSchedule (calculate_loan_schedule P rate n method)) : ℚ) - P| ≤ (n : ℚ) / 2 := by
  obtain ⟨k, rfl⟩ : ∃ k : ℕ, n = (k : ℤ) := ⟨n.toNat, (Int.toNat_of_nonneg (by omega)).symm⟩
  have hk0 : k ≠ 0 := by omega
  have hn0 : ((k : ℤ)) ≠ 0 := by omega
  have hkq : ((k : ℚ)) ≠ 0 := Nat.cast_ne_zero.mpr hk0
  have hkpos : (0 : ℚ) < (k : ℚ) := Nat.cast_pos.mpr (Nat.pos_of_ne_zero hk0)
  rcases hm with hm | hm
  · -- EQUAL_PRINCIPAL
    subst hm
    rw [cls_ep_eq P rate (k : ℤ) _ (by decide) hn0]
    refine ⟨rfl, ?_⟩
    simp only [clsSchedule, Int.toNat_natCast]
    rw [sumPP_epLoop]
    push_cast
    have h2 := roundHE_abs_sub_le (P / (k : ℚ))
    have hPk : (k : ℚ) * (P / (k : ℚ)) = P := by field_simp
    calc |(k : ℚ) * (roundHE (P / (k : ℚ)) : ℚ) - P|
        = |(k : ℚ) * ((roundHE (P / (k : ℚ)) : ℚ) - P / (k : ℚ))| := by rw [mul_sub, hPk]
      _ = |(k : ℚ)| * |(roundHE (P / (k : ℚ)) : ℚ) - P / (k : ℚ)| := abs_mul _ _
      _ = (k : ℚ) * |(roundHE (P / (k : ℚ)) : ℚ) - P / (k : ℚ)| := by rw [abs_of_pos hkpos]
      _ ≤ (k : ℚ) * (1 / 2) := by nlinarith [abs_nonneg ((roundHE (P / (k : ℚ)) : ℚ) - P / (k : ℚ))]
      _ = (k : ℚ) / 2 := by ring
  · -- EQUAL_PAYMENT
    subst hm
    by_cases hr : 0 < rate / 100 / 12
    · -- positive monthly rate: annuity formula
      have h1r : 1 < 1 + rate / 100 / 12 := by linarith
      have hdk : (1 + rate / 100 / 12) ^ k - 1 ≠ 0 :=
        sub_ne_zero.mpr (ne_of_gt (one_lt_pow₀ h1r hk0))
      have hd : (1 + rate / 100 / 12) ^ ((k : ℕ) : ℤ) - 1 ≠ 0 := by
        rw [zpow_natCast]; exact hdk
      have hzero : ¬ (1 + rate / 100 / 12 = 0 ∧ ((k : ℕ) : ℤ) < 0) := by
        rintro ⟨h, -⟩; linarith
      rw [cls_eqpay_pos P rate (k : ℤ) hr hzero hd]
      refine ⟨rfl, ?_⟩
      simp only [clsSchedule, Int.toNat_natCast]
      have hb := apLoop_sumPP_bound
        (P * (rate / 100 / 12 * (1 + rate / 100 / 12) ^ ((k : ℕ) : ℤ))
          / ((1 + rate / 100 / 12) ^ ((k : ℕ) : ℤ) - 1)) (rate / 100 / 12) k 1 P
      have hz : apRem
          (P * (rate / 100 / 12 * (1 + rate / 100 / 12) ^ ((k : ℕ) : ℤ))
            / ((1 + rate / 100 / 12) ^ ((k : ℕ) : ℤ) - 1)) (rate / 100 / 12) k P = 0 := by
        rw [apRem_closed _ _ (ne_of_gt hr) k, zpow_natCast]
        have hr1 : rate / 100 / 12 ≠ 0 := ne_of_gt hr
        generalize hx : (1 + rate / 100 / 12) ^ k = x at hdk ⊢
        generalize hrr : rate / 100 / 12 = r1 at hr1 ⊢
        field_simp
        ring
      rw [hz, sub_zero] at hb
      push_cast at hb ⊢
      exact hb
    · -- zero monthly rate: even division
      have hr0 : rate / 100 / 12 = 0 := by
        have hge : 0 ≤ rate / 100 / 12 := by positivity
        linarith [not_lt.mp hr]
      rw [cls_eqpay_zero_rate P rate (k : ℤ) hr hn0]
      refine ⟨rfl, ?_⟩
      simp only [clsSchedule, Int.toNat_natCast]
      have hb := apLoop_sumPP_bound (P / ((k : ℤ) : ℚ)) (rate / 100 / 12) k 1 P
      have hz : apRem (P / ((k : ℤ) : ℚ)) (rate / 100 / 12) k P = 0 := by
        rw [hr0, apRem_zero_rate]
        push_cast
        field_simp
      rw [hz, sub_zero] at hb
      push_cast at hb ⊢
      exact hb

/-- C1 counterexample: principal 100, rate 0, 6 months, EQUAL_PRINCIPAL is a
valid input, yet the returned schedule's principal payments sum to 102,
which is not within one currency unit of the principal. -/
theorem amortization_principal_sum_exceeds_one_unit :
    0 < (100 : ℚ) ∧ 0 ≤ (0 : ℚ) ∧ 1 ≤ (6 : ℤ) ∧
    sumPP (clsSchedule (calculate_loan_schedule 100 0 6 "EQUAL_PRINCIPAL")) = 102 ∧
    ¬ |(sumPP (clsSchedule (calculate_loan_schedule 100 0 6 "EQUAL_PRINCIPAL")) : ℚ) - 100| ≤ 1 := by
  have hval : sumPP (clsSchedule (calculate_loan_schedule 100 0 6 "EQUAL_PRINCIPAL")) = 102 := by
    rw [cls_ep_eq 100 0 6 _ (by decide) (by norm_num)]
    norm_num [clsSchedule, sumPP, epLoop, roundHE, Int.toNat_ofNat]
  refine ⟨by norm_num, le_refl 0, by norm_num, hval, ?_⟩
  rw [hval]
  norm_num

/-- C1 witness: the amended bound instantiated at the same valid input. -/
theorem amortization_principal_sum_bounded_witness :
    (calculate_loan_schedule 100 0 6 "EQUAL_PRINCIPAL").isOk = true ∧
    |(sumPP (clsSchedule (calculate_loan_schedule 100 0 6 "EQUAL_PRINCIPAL")) : ℚ) - 100| ≤ ((6 : ℤ) : ℚ) / 2 :=
  amortization_principal_sum_bounded 100 0 6 "EQUAL_PRINCIPAL"
    (by norm_num) (by norm_num) (by norm_num) (Or.inl rfl)

/-- C7 counterexample: `calculate_loan_schedule` with months = −3 (a
precondition violation per the claim) does not fail with InvalidArgument:
it succeeds and returns an empty schedule. -/
theorem schedule_negative_months_succeeds :
    (calculate_loan_schedule 100 12 (-3) "EQUAL_PRINCIPAL").isOk = true ∧
    clsSchedule (calculate_loan_schedule 100 12 (-3) "EQUAL_PRINCIPAL") = [] := by
  rw [cls_ep_eq 100 12 (-3) _ (by decide) (by norm_num)]
  exact ⟨rfl, rfl⟩

/-- C7 (amended): `calculate_loan_schedule` performs no input validation.
Months < 0 yields a successful empty schedule; months = 0 fails with a
ZeroDivisionError defect (not InvalidArgument); principal ≤ 0 with
months ≥ 1 yields a successful months-row schedule. -/
theorem schedule_no_invalid_argument_validation :
    (∀ (P rate : ℚ) (n : ℤ) (method : String), 0 ≤ rate → n < 0 →
      (calculate_loan_schedule P rate n method).isOk = true ∧
      clsSchedule (calculate_loan_schedule P rate n method) = []) ∧
    (∀ (P rate : ℚ) (method : String), 0 ≤ rate →
      calculate_loan_schedule P rate 0 method = .error zeroDivisionError) ∧
    (∀ (P rate : ℚ) (n : ℤ) (method : String), 0 ≤ rate → 1 ≤ n → P ≤ 0 →
      (calculate_loan_schedule P rate n method).isOk = true ∧
      (clsSchedule (calculate_loan_schedule P rate n method)).length = n.toNat) := by
  refine ⟨?_, ?_, ?_⟩
  · intro P rate n method hrate hneg
    have ht : n.toNat = 0 := Int.toNat_of_nonpos (le_of_lt hneg)
    by_cases hm : method = "EQUAL_PAYMENT"
    · subst hm
      by_cases hr : 0 < rate / 100 / 12
      · have h1r : 1 < 1 + rate / 100 / 12 := by linarith
        have hzero : ¬ (1 + rate / 100 / 12 = 0 ∧ n < 0) := by
          rintro ⟨h, -⟩; linarith
        have hd : (1 + rate / 100 / 12) ^ n - 1 ≠ 0 := by
          intro hcon
          have h2 : (1 + rate / 100 / 12) ^ n = 1 := by
            have := sub_eq_zero.mp hcon; exact this
          have h3 := zpow_lt_one_of_neg₀ h1r hneg
          rw [h2] at h3
          exact lt_irrefl 1 h3
        rw [cls_eqpay_pos P rate n hr hzero hd]
        exact ⟨rfl, by simp [clsSchedule, ht, apLoop]⟩
      · rw [cls_eqpay_zero_rate P rate n hr (by omega)]
        exact ⟨rfl, by simp [clsSchedule, ht, apLoop]⟩
    · rw [cls_ep_eq P rate n method hm (by omega)]
      exact ⟨rfl, by simp [clsSchedule, ht, epLoop]⟩
  · intro P rate method hrate
    by_cases hm : method = "EQUAL_PAYMENT"
    · subst hm
      by_cases hr : 0 < rate / 100 / 12
      · simp [calculate_loan_schedule, hr, zpow_zero]
      · simp [calculate_loan_schedule, hr]
    · simp [calculate_loan_schedule, hm]
  · intro P rate n method hrate hn hP
    obtain ⟨k, rfl⟩ : ∃ k : ℕ, n = (k : ℤ) := ⟨n.toNat, (Int.toNat_of_nonneg (by omega)).symm⟩
    have hk0 : k ≠ 0 := by omega
    have hn0 : ((k : ℤ)) ≠ 0 := by omega
    by_cases hm : method = "EQUAL_PAYMENT"
    · subst hm
      by_cases hr : 0 < rate / 100 / 12
      · have h1r : 1 < 1 + rate / 100 / 12 := by linarith
        have hdk : (1 + rate / 100 / 12) ^ k - 1 ≠ 0 :=
          sub_ne_zero.mpr (ne_of_gt (one_lt_pow₀ h1r hk0))
        have hd : (1 + rate / 100 / 12) ^ ((k : ℕ) : ℤ) - 1 ≠ 0 := by
          rw [zpow_natCast]; exact hdk
        have hzero : ¬ (1 + rate / 100 / 12 = 0 ∧ ((k : ℕ) : ℤ) < 0) := by
          rintro ⟨h, -⟩; linarith
        rw [cls_eqpay_pos P rate (k : ℤ) hr hzero hd]
        exact ⟨rfl, by simp [clsSchedule, Int.toNat_natCast, apLoop_length]⟩
      · rw [cls_eqpay_zero_rate P rate (k : ℤ) hr hn0]
        exact ⟨rfl, by simp [clsSchedule, Int.toNat_natCast, apLoop_length]⟩
    · rw [cls_ep_eq P rate (k : ℤ) method hm hn0]
      exact ⟨rfl, by simp [clsSchedule, Int.toNat_natCast, epLoop_length]⟩

/-- C7 witness: the amended behaviour at concrete inputs for both methods. -/
theorem schedule_no_invalid_argument_validation_witness :
    ((calculate_loan_schedule 100 12 (-5) "EQUAL_PAYMENT").isOk = true ∧
      clsSchedule (calculate_loan_schedule 100 12 (-5) "EQUAL_PAYMENT") = []) ∧
    calculate_loan_schedule 50 7 0 "EQUAL_PRINCIPAL" = .error zeroDivisionError ∧
    ((calculate_loan_schedule (-100) 12 4 "EQUAL_PRINCIPAL").isOk = true ∧
      (clsSchedule (calculate_loan_schedule (-100) 12 4 "EQUAL_PRINCIPAL")).length = (4 : ℤ).toNat) :=
  ⟨schedule_no_invalid_argument_validation.1 100 12 (-5) "EQUAL_PAYMENT"
      (by norm_num) (by norm_num),
   schedule_no_invalid_argument_validation.2.1 50 7 "EQUAL_PRINCIPAL" (by norm_num),
   schedule_no_invalid_argument_validation.2.2 (-100) 12 4 "EQUAL_PRINCIPAL"
      (by norm_num) (by norm_num) (by norm_num)⟩

/-- Borrower profile facts consumed by `_assess_risk`
(src/ai_agents/agents/borrower_profiler_new.py).  `Option` models Python
`None`; a stored 0 is falsy in Python, which the factor functions mirror. -/
structure ProfileFacts where
  kyc_status : String
  ocr_match_score : Option ℚ
  monthly_income : Option ℚ
deriving DecidableEq, Repr

/-- The loan-request fields used by the debt-ratio factor. -/
structure LoanReqFacts where
  amount : ℚ
  duration_months : ℤ
deriving DecidableEq, Repr

/-- Factor 1 of `_assess_risk`: 100 when KYC is VERIFIED, else the OCR
match score when truthy, else 0. -/
def kyc_factor (p : ProfileFacts) : ℚ :=
  if p.kyc_status = "VERIFIED" then 100
  else
    match p.ocr_match_score with
    | some s => if s = 0 then 0 else s
    | none => 0

/-- Factor 2 of `_assess_risk`: income tiers (a falsy income leaves 0). -/
def income_stability_factor (p : ProfileFacts) : ℚ :=
  match p.monthly_income with
  | some v =>
    if v = 0 then 0
    else if 20000000 ≤ v then 100
    else if 10000000 ≤ v then 80
    else if 5000000 ≤ v then 60
    else 40
  | none => 0

/-- Factor 3 of `_assess_risk`: `min(100, 60 + past_loans * 10)` when any
past (inactive) contract exists, else the new-borrower default 50. -/
def loan_history_factor (past_loans : ℕ) : ℚ :=
  if 0 < past_loans then min 100 (60 + (past_loans : ℚ) * 10) else 50

/-- Factor 4 of `_assess_risk`: the debt ratio
`(amount / duration) / income * 100` tiers, defaulting to 60 when there is
no loan request or no (truthy) income. -/
def debt_factor (p : ProfileFacts) (loan : Option LoanReqFacts) : ℚ :=
  match loan with
  | some lr =>
    match p.monthly_income with
    | some inc =>
      if inc = 0 then 60
      else if lr.amount / (lr.duration_months : ℚ) / inc * 100 ≤ 30 then 100
      else if lr.amount / (lr.duration_months : ℚ) / inc * 100 ≤ 50 then 70
      else if lr.amount / (lr.duration_months : ℚ) / inc * 100 ≤ 70 then 50
      else 30
    | none => 60
  | none => 60

/-- `sum(factors[k] * weights[k] * 10 for k in weights)` with the source
weights 0.3 / 0.25 / 0.2 / 0.25. -/
def credit_score_raw (p : ProfileFacts) (past_loans : ℕ) (loan : Option LoanReqFacts) : ℚ :=
  kyc_factor p * 0.3 * 10 + income_stability_factor p * 0.25 * 10 +
    loan_history_factor past_loans * 0.2 * 10 + debt_factor p loan * 0.25 * 10

/-- `credit_score = min(1000, max(0, int(credit_score)))` — note Python
`int`, i.e. truncation toward zero, not rounding. -/
def credit_score (p : ProfileFacts) (past_loans : ℕ) (loan : Option LoanReqFacts) : ℤ :=
  min 1000 (max 0 (pyTrunc (credit_score_raw p past_loans loan)))

/-- The risk-level ladder of `_assess_risk`. -/
def risk_level (score : ℤ) : String :=
  if 800 ≤ score then "VERY_LOW"
  else if 650 ≤ score then "LOW"
  else if 500 ≤ score then "MEDIUM"
  else if 350 ≤ score then "HIGH"
  else "VERY_HIGH"

/-- `_assess_risk` (scoring part): the credit score and risk level it
computes and persists. -/
def assess_risk (p : ProfileFacts) (past_loans : ℕ) (loan : Option LoanReqFacts) : ℤ × String :=
  (credit_score p past_loans loan, risk_level (credit_score p past_loans loan))

lemma risk_level_iff (s : ℤ) :
    (risk_level s = "VERY_LOW" ↔ 800 ≤ s) ∧
    (risk_level s = "LOW" ↔ 650 ≤ s ∧ s < 800) ∧
    (risk_level s = "MEDIUM" ↔ 500 ≤ s ∧ s < 650) ∧
    (risk_level s = "HIGH" ↔ 350 ≤ s ∧ s < 500) ∧
    (risk_level s = "VERY_HIGH" ↔ s < 350) := by
  unfold risk_level
  split_ifs with h1 h2 h3 h4 <;>
    refine ⟨?_, ?_, ?_, ?_, ?_⟩ <;> constructor <;> intro h <;>
    first
    | rfl
    | omega
    | exact absurd h (by decide)
    | (exfalso; omega)

/-- C2 (amended): the credit score equals
clamp(0, 1000, trunc(Σ factor×weight×10)) — Python `int` truncation, not
rounding — with weights 0.30/0.25/0.20/0.25, hence always lies in
[0, 1000], and the risk tier follows the threshold table exactly. -/
theorem credit_score_trunc_clamped_and_tiers
    (p : ProfileFacts) (past_loans : ℕ) (loan : Option LoanReqFacts)
    (hdur : ∀ lr, loan = some lr → 1 ≤ lr.duration_months) :
    (assess_risk p past_loans loan).1 =
      min 1000 (max 0 (pyTrunc (10 * (kyc_factor p * 0.30 +
        income_stability_factor p * 0.25 +
        loan_history_factor past_loans * 0.20 + debt_factor p loan * 0.25)))) ∧
    0 ≤ (assess_risk p past_loans loan).1 ∧
    (assess_risk p past_loans loan).1 ≤ 1000 ∧
    ((assess_risk p past_loans loan).2 = "VERY_LOW" ↔
      800 ≤ (assess_risk p past_loans loan).1) ∧
    ((assess_risk p past_loans loan).2 = "LOW" ↔
      650 ≤ (assess_risk p past_loans loan).1 ∧ (assess_risk p past_loans loan).1 < 800) ∧
    ((assess_risk p past_loans loan).2 = "MEDIUM" ↔
      500 ≤ (assess_risk p past_loans loan).1 ∧ (assess_risk p past_loans loan).1 < 650) ∧
    ((assess_risk p past_loans loan).2 = "HIGH" ↔
      350 ≤ (assess_risk p past_loans loan).1 ∧ (assess_risk p past_loans loan).1 < 500) ∧
    ((assess_risk p past_loans loan).2 = "VERY_HIGH" ↔
      (assess_risk p past_loans loan).1 < 350) := by
  have harg : credit_score_raw p past_loans loan =
      10 * (kyc_factor p * 0.30 + income_stability_factor p * 0.25 +
        loan_history_factor past_loans * 0.20 + debt_factor p loan * 0.25) := by
    unfold credit_score_raw; ring
  have h1 : (assess_risk p past_loans loan).1 = credit_score p past_loans loan := rfl
  have h2 : (assess_risk p past_loans loan).2 =
      risk_level (credit_score p past_loans loan) := rfl
  have hl := risk_level_iff (credit_score p past_loans loan)
  refine ⟨?_, ?_, ?_, ?_, ?_, ?_, ?_, ?_⟩
  · rw [h1, credit_score, harg]
  · rw [h1, credit_score]; exact le_min (by norm_num) (le_max_left _ _)
  · rw [h1, credit_score]; exact min_le_left _ _
  · rw [h1, h2]; exact hl.1
  · rw [h1, h2]; exact hl.2.1
  · rw [h1, h2]; exact hl.2.2.1
  · rw [h1, h2]; exact hl.2.2.2.1
  · rw [h1, h2]; exact hl.2.2.2.2

/-- C2 counterexample: with an OCR match score of 83.9 (KYC not verified,
no income, no past loans, no loan request) the raw weighted sum is 501.7;
the code's `int` truncation yields 501, while the claimed `round` yields
502, so the claimed formula does not match the code. -/
theorem credit_score_not_round :
    (assess_risk ⟨"PENDING", some (839/10), none⟩ 0 none).1 = 501 ∧
    min 1000 (max 0 (roundHE
      (credit_score_raw ⟨"PENDING", some (839/10), none⟩ 0 none))) = 502 := by
  have hs : (("PENDING" : String) = "VERIFIED") = False := eq_false (by decide)
  constructor <;>
    norm_num [assess_risk, credit_score, credit_score_raw, kyc_factor,
      income_stability_factor, loan_history_factor, debt_factor, pyTrunc, roundHE, hs]

def noProfileError : String := "NoProfile"
def noKycDocsError : String := "NoKycDocs"
def ocrFailedError : String := "OcrVerificationFailed"

/-- `BorrowerProfilerAgent.process` (src/ai_agents/agents/borrower_profiler_new.py),
with the external OCR verification step abstracted as `ocrStep` (it may
rewrite the profile, e.g. set `kyc_status` to VERIFIED, and reports
success).  A loan request is carried as its scoring facts plus its current
status string; error messages are abbreviated to tags.  The loan status is
set to APPROVED exactly when a loan request is present and the (possibly
OCR-refreshed) profile's KYC status is VERIFIED; no other status is ever
written by this path. -/
def profiler_process (ocrStep : ProfileFacts → Bool × ProfileFacts)
    (hasProfile hasKycDocs : Bool) (profile : ProfileFacts) (past_loans : ℕ)
    (loan : Option (LoanReqFacts × String)) :
    Except String ((ℤ × String) × Option (LoanReqFacts × String)) :=
  if hasProfile = false then .error noProfileError
  else if hasKycDocs = false then .error noKycDocsError
  else if (if profile.kyc_status = "VERIFIED" then (true, profile)
      else ocrStep profile).1 = false then .error ocrFailedError
  else
    .ok (assess_risk (if profile.kyc_status = "VERIFIED" then (true, profile)
          else ocrStep profile).2 past_loans (Option.map Prod.fst loan),
      match loan with
      | some (lf, st) =>
        if (if profile.kyc_status = "VERIFIED" then (true, profile)
            else ocrStep profile).2.kyc_status = "VERIFIED"
        then some (lf, "APPROVED") else some (lf, st)
      | none => none)

/-- C10: when the borrower's KYC status is VERIFIED and a loan request is
present, `process` sets the loan status to APPROVED unconditionally —
whatever credit score or risk level `assess_risk` computes — and the
scoring path never writes any status other than APPROVED (in particular
never REJECTED: the loan either becomes APPROVED or keeps its old status). -/
theorem kyc_verified_approves_regardless_of_risk :
    (∀ (ocrStep : ProfileFacts → Bool × ProfileFacts) (profile : ProfileFacts)
        (past_loans : ℕ) (lf : LoanReqFacts) (st : String),
      profile.kyc_status = "VERIFIED" →
      1 ≤ lf.duration_months →
      profiler_process ocrStep true true profile past_loans (some (lf, st)) =
        .ok (assess_risk profile past_loans (some lf), some (lf, "APPROVED"))) ∧
    (∀ (ocrStep : ProfileFacts → Bool × ProfileFacts) (hasP hasD : Bool)
        (profile : ProfileFacts) (past_loans : ℕ)
        (loan : Option (LoanReqFacts × String)) res,
      profiler_process ocrStep hasP hasD profile past_loans loan = .ok res →
      ∀ (lf : LoanReqFacts) (st : String), res.2 = some (lf, st) →
        st = "APPROVED" ∨ some (lf, st) = loan) := by
  constructor
  · intro ocrStep profile past_loans lf st hkyc hdur
    simp [profiler_process, hkyc]
  · intro ocrStep hasP hasD profile past_loans loan res hok lf st hres
    unfold profiler_process at hok
    by_cases h1 : hasP = false
    · rw [if_pos h1] at hok; exact absurd hok (by simp)
    rw [if_neg h1] at hok
    by_cases h2 : hasD = false
    · rw [if_pos h2] at hok; exact absurd hok (by simp)
    rw [if_neg h2] at hok
    by_cases h3 : (if profile.kyc_status = "VERIFIED" then (true, profile)
        else ocrStep profile).1 = false
    · rw [if_pos h3] at hok; exact absurd hok (by simp)
    rw [if_neg h3] at hok
    rcases loan with _ | ⟨lf0, st0⟩
    · have hpair := Except.ok.inj hok
      have hr2 : res.2 = none := by rw [← hpair]
      rw [hr2] at hres
      simp at hres
    · by_cases hv : (if profile.kyc_status = "VERIFIED" then (true, profile)
          else ocrStep profile).2.kyc_status = "VERIFIED"
      · simp only [hv, if_true] at hok
        have hpair := Except.ok.inj hok
        have hr2 : res.2 = some (lf0, "APPROVED") := by rw [← hpair]
        rw [hr2] at hres
        simp at hres
        exact Or.inl hres.2.symm
      · simp only [hv, if_false] at hok
        have hpair := Except.ok.inj hok
        have hr2 : res.2 = some (lf0, st0) := by rw [← hpair]
        rw [hr2] at hres
        exact Or.inr hres.symm

/-- C10 witness: a VERIFIED borrower with a pending loan request gets
APPROVED by `process`, whatever `assess_risk` returned. -/
theorem kyc_verified_approves_regardless_of_risk_witness :
    profiler_process (fun p => (true, p)) true true ⟨"VERIFIED", none, none⟩ 0
        (some (⟨30000000, 6⟩, "PENDING")) =
      .ok (assess_risk ⟨"VERIFIED", none, none⟩ 0 (some ⟨30000000, 6⟩),
        some (⟨30000000, 6⟩, "APPROVED")) :=
  kyc_verified_approves_regardless_of_risk.1 (fun p => (true, p))
    ⟨"VERIFIED", none, none⟩ 0 ⟨30000000, 6⟩ "PENDING" rfl (by norm_num)

/-- A PENDING installment row as read by `calculate_early_payoff`
(src/ai_agents/agents/payment_monitor_new.py); dates are day numbers. -/
structure PendInst where
  principal_amount : ℚ
  interest_amount : ℚ
  total_amount : ℚ
  due_date : ℤ
deriving DecidableEq, Repr

/-- The data object returned by `calculate_early_payoff`. -/
structure PayoffQuote where
  remaining_installments : ℕ
  total_principal_remaining : ℚ
  total_interest_remaining : ℚ
  discounted_interest : ℚ
  late_fees : ℚ
  total_payoff_amount : ℚ
  savings : ℚ
deriving DecidableEq, Repr

/-- `calculate_early_payoff` over the contract's PENDING installments:
50% discount on remaining interest, 0.05%/day penalty on each overdue
installment, payoff = principal + discounted interest + late fees. -/
def calculate_early_payoff (pending : List PendInst) (today : ℤ) : PayoffQuote :=
  ⟨pending.length,
   (pending.map PendInst.principal_amount).sum,
   (pending.map PendInst.interest_amount).sum,
   (pending.map PendInst.interest_amount).sum * 0.5,
   ((pending.filter (fun p => p.due_date < today)).map
     (fun p => p.total_amount * 0.0005 * ((today - p.due_date : ℤ) : ℚ))).sum,
   (pending.map PendInst.principal_amount).sum +
     (pending.map PendInst.interest_amount).sum * 0.5 +
     ((pending.filter (fun p => p.due_date < today)).map
       (fun p => p.total_amount * 0.0005 * ((today - p.due_date : ℤ) : ℚ))).sum,
   (pending.map PendInst.interest_amount).sum -
     (pending.map PendInst.interest_amount).sum * 0.5⟩

/-- C6: `calculate_early_payoff` returns discountedInterest = half the
remaining interest, lateFees = the sum of the per-day penalties on the
already-overdue pending installments, totalPayoff = principalRemaining +
discountedInterest + lateFees, and savings = interestRemaining −
discountedInterest. -/
theorem early_payoff_formulas (pending : List PendInst) (today : ℤ) :
    (calculate_early_payoff pending today).discounted_interest =
      (1 / 2) * (calculate_early_payoff pending today).total_interest_remaining ∧
    (calculate_early_payoff pending today).late_fees =
      ((pending.filter (fun p => p.due_date < today)).map
        (fun p => p.total_amount * (5 / 10000) * ((today - p.due_date : ℤ) : ℚ))).sum ∧
    (calculate_early_payoff pending today).total_payoff_amount =
      (calculate_early_payoff pending today).total_principal_remaining +
        (calculate_early_payoff pending today).discounted_interest +
        (calculate_early_payoff pending today).late_fees ∧
    (calculate_early_payoff pending today).savings =
      (calculate_early_payoff pending today).total_interest_remaining -
        (calculate_early_payoff pending today).discounted_interest := by
  refine ⟨?_, ?_, rfl, rfl⟩
  · show (pending.map PendInst.interest_amount).sum * 0.5 =
      (1 / 2) * (pending.map PendInst.interest_amount).sum
    norm_num [mul_comm]
  · show ((pending.filter (fun p => p.due_date < today)).map
        (fun p => p.total_amount * 0.0005 * ((today - p.due_date : ℤ) : ℚ))).sum = _
    norm_num

/-- The contract fields read by `process_payment`. -/
structure PayContract where
  borrower_id : ℕ
  lender_id : ℕ
deriving DecidableEq, Repr

/-- The immutable fields of the installment being paid. -/
structure InstFields where
  due_date : ℤ
  total_amount : ℚ
  principal_amount : ℚ
  interest_amount : ℚ
deriving DecidableEq, Repr

/-- A `PaymentTransaction` ledger row. -/
structure Txn where
  amount : ℚ
  late_fee : ℚ
  late_days : ℤ
  transaction_type : String
  payer : ℕ
  recipient : ℕ
deriving DecidableEq, Repr

/-- The mutable database state touched by `process_payment`
(src/ai_agents/agents/payment_monitor_new.py): the installment row, both
wallets, the ledger, and the contract / loan-request status.
`pending_others` counts the contract's other PENDING installments. -/
structure PayState where
  inst_status : String
  paid_amount : Option ℚ
  paid_date : Option ℤ
  inst_late_fee : ℚ
  inst_late_days : ℤ
  borrower_balance : ℚ
  lender_balance : ℚ
  transactions : List Txn
  contract_status : String
  contract_is_active : Bool
  loan_status : String
  pending_others : ℕ
deriving DecidableEq, Repr

inductive PayErr where
  | notBorrower
  | insufficientPayment
  | insufficientBalance
deriving DecidableEq, Repr

/-- The JSON data of a successful `process_payment`. -/
structure PayResultData where
  amount_paid : ℚ
  late_fee : ℚ
  late_days : ℤ
  payment_status : String
  contract_status : String
  remaining_installments : ℕ
deriving DecidableEq, Repr

/-- `process_payment(payment_id, user_id, amount, payment_method)` from
src/ai_agents/agents/payment_monitor_new.py.  Checks (payer is the
borrower; amount covers total + late fee; wallet balance suffices) happen
before any mutation.  On success it debits the borrower by the full
total_due but credits the lender only `total_amount`, appends one
transaction, marks the row PAID — without ever checking the previous
installment status — and completes the contract when no other PENDING
installment remains. -/
def process_payment (c : PayContract) (inst : InstFields) (user_id : ℕ)
    (amount : ℚ) (payment_method : String) (today : ℤ) (st : PayState) :
    Except PayErr PayResultData × PayState :=
  if c.borrower_id ≠ user_id then (.error .notBorrower, st)
  else
    let late_days : ℤ := if inst.due_date < today then today - inst.due_date else 0
    let late_fee : ℚ :=
      if inst.due_date < today
      then inst.total_amount * 0.0005 * ((today - inst.due_date : ℤ) : ℚ) else 0
    let total_due := inst.total_amount + late_fee
    if amount < total_due then (.error .insufficientPayment, st)
    else if payment_method = "WALLET" ∧ st.borrower_balance < total_due then
      (.error .insufficientBalance, st)
    else
      let st1 :=
        if payment_method = "WALLET" then
          { st with borrower_balance := st.borrower_balance - total_due,
                    lender_balance := st.lender_balance + inst.total_amount }
        else st
      let st2 :=
        { st1 with
          transactions := st1.transactions ++
            [⟨total_due, late_fee, late_days, "INSTALLMENT", user_id, c.lender_id⟩],
          inst_status := "PAID", paid_amount := some total_due,
          paid_date := some today,
          inst_late_fee := late_fee, inst_late_days := late_days }
      let st3 :=
        if st2.pending_others = 0 then
          { st2 with contract_status := "COMPLETED", contract_is_active := false,
                     loan_status := "COMPLETED" }
        else st2
      (.ok ⟨total_due, late_fee, late_days, st3.inst_status, st3.contract_status,
        st3.pending_others⟩, st3)

/-- C4: a `process_payment` call by the borrower whose amount is strictly
below total_amount + late fee (as of today) fails with InsufficientPayment
and returns the state unchanged: installment row, both wallets, ledger,
and statuses are exactly as before. -/
theorem insufficient_payment_rejected_no_mutation
    (c : PayContract) (inst : InstFields) (amount : ℚ) (method : String)
    (today : ℤ) (st : PayState)
    (hlt : amount < inst.total_amount +
      (if inst.due_date < today
       then inst.total_amount * 0.0005 * ((today - inst.due_date : ℤ) : ℚ) else 0)) :
    process_payment c inst c.borrower_id amount method today st =
      (.error .insufficientPayment, st) := by
  have hlt2 := hlt
  push_cast at hlt2
  simp [process_payment, hlt2]

/-- C4 witness: an installment of 1,000,000 due 10 days ago carries a
5,000 late fee; paying exactly 1,000,000 is rejected with no mutation. -/
theorem insufficient_payment_rejected_no_mutation_witness :
    process_payment ⟨1, 2⟩ ⟨100, 1000000, 900000, 100000⟩ 1 1000000 "WALLET" 110
        ⟨"PENDING", none, none, 0, 0, 5000000, 0, [], "ACTIVE", true, "FUNDED", 1⟩ =
      (.error .insufficientPayment,
        ⟨"PENDING", none, none, 0, 0, 5000000, 0, [], "ACTIVE", true, "FUNDED", 1⟩) :=
  insufficient_payment_rejected_no_mutation ⟨1, 2⟩ ⟨100, 1000000, 900000, 100000⟩
    1000000 "WALLET" 110 ⟨"PENDING", none, none, 0, 0, 5000000, 0, [], "ACTIVE", true, "FUNDED", 1⟩
    (by norm_num)

/-- C9: a successful WALLET payment on an overdue installment debits the
borrower by total_amount + late fee but credits the lender only
total_amount; the late-fee portion is credited to no account, so the sum
of the two wallet balances drops by exactly the late fee. -/
theorem wallet_payment_balance_effects
    (c : PayContract) (inst : InstFields) (amount : ℚ) (today : ℤ) (st : PayState)
    (hover : inst.due_date < today)
    (hamt : inst.total_amount +
      inst.total_amount * 0.0005 * ((today : ℚ) - (inst.due_date : ℚ)) ≤ amount)
    (hbal : inst.total_amount +
      inst.total_amount * 0.0005 * ((today : ℚ) - (inst.due_date : ℚ)) ≤ st.borrower_balance) :
    ((process_payment c inst c.borrower_id amount "WALLET" today st).1.isOk = true) ∧
    (process_payment c inst c.borrower_id amount "WALLET" today st).2.borrower_balance =
      st.borrower_balance - (inst.total_amount +
        inst.total_amount * 0.0005 * ((today : ℚ) - (inst.due_date : ℚ))) ∧
    (process_payment c inst c.borrower_id amount "WALLET" today st).2.lender_balance =
      st.lender_balance + inst.total_amount ∧
    (process_payment c inst c.borrower_id amount "WALLET" today st).2.borrower_balance +
        (process_payment c inst c.borrower_id amount "WALLET" today st).2.lender_balance =
      st.borrower_balance + st.lender_balance -
        inst.total_amount * 0.0005 * ((today : ℚ) - (inst.due_date : ℚ)) ∧
    (process_payment c inst c.borrower_id amount "WALLET" today st).2.transactions =
      st.transactions ++
        [⟨inst.total_amount + inst.total_amount * 0.0005 * ((today : ℚ) - (inst.due_date : ℚ)),
          inst.total_amount * 0.0005 * ((today : ℚ) - (inst.due_date : ℚ)),
          today - inst.due_date, "INSTALLMENT", c.borrower_id, c.lender_id⟩] ∧
    (process_payment c inst c.borrower_id amount "WALLET" today st).2.inst_status = "PAID" := by
  have h1 : ¬ (amount < inst.total_amount +
      inst.total_amount * 0.0005 * ((today : ℚ) - (inst.due_date : ℚ))) := not_lt.mpr hamt
  have h2 : ¬ (st.borrower_balance < inst.total_amount +
      inst.total_amount * 0.0005 * ((today : ℚ) - (inst.due_date : ℚ))) := not_lt.mpr hbal
  refine ⟨?_, ?_, ?_, ?_, ?_, ?_⟩ <;>
    by_cases hpend : st.pending_others = 0 <;>
    simp [process_payment, Except.isOk, Except.toBool, hover, h1, h2, hpend] <;>
    try ring

/-- C9 witness: an installment of 1,000,000 due 10 days ago (fee 5,000),
paid with sufficient wallet funds: borrower −1,005,000, lender +1,000,000,
the pair of balances drops by the 5,000 fee. -/
theorem wallet_payment_balance_effects_witness :
    ((process_payment ⟨1, 2⟩ ⟨0, 1000000, 900000, 100000⟩ 1 1005000 "WALLET" 10
        ⟨"PENDING", none, none, 0, 0, 2000000, 500000, [], "ACTIVE", true, "FUNDED", 2⟩).1.isOk = true) ∧
    (process_payment ⟨1, 2⟩ ⟨0, 1000000, 900000, 100000⟩ 1 1005000 "WALLET" 10
        ⟨"PENDING", none, none, 0, 0, 2000000, 500000, [], "ACTIVE", true, "FUNDED", 2⟩).2.borrower_balance =
      2000000 - (1000000 + 1000000 * 0.0005 * ((10 : ℚ) - (0 : ℚ))) ∧
    (process_payment ⟨1, 2⟩ ⟨0, 1000000, 900000, 100000⟩ 1 1005000 "WALLET" 10
        ⟨"PENDING", none, none, 0, 0, 2000000, 500000, [], "ACTIVE", true, "FUNDED", 2⟩).2.lender_balance =
      500000 + 1000000 ∧
    (process_payment ⟨1, 2⟩ ⟨0, 1000000, 900000, 100000⟩ 1 1005000 "WALLET" 10
        ⟨"PENDING", none, none, 0, 0, 2000000, 500000, [], "ACTIVE", true, "FUNDED", 2⟩).2.borrower_balance +
      (process_payment ⟨1, 2⟩ ⟨0, 1000000, 900000, 100000⟩ 1 1005000 "WALLET" 10
        ⟨"PENDING", none, none, 0, 0, 2000000, 500000, [], "ACTIVE", true, "FUNDED", 2⟩).2.lender_balance =
      2000000 + 500000 - 1000000 * 0.0005 * ((10 : ℚ) - (0 : ℚ)) ∧
    (process_payment ⟨1, 2⟩ ⟨0, 1000000, 900000, 100000⟩ 1 1005000 "WALLET" 10
        ⟨"PENDING", none, none, 0, 0, 2000000, 500000, [], "ACTIVE", true, "FUNDED", 2⟩).2.transactions =
      [] ++ [⟨1000000 + 1000000 * 0.0005 * ((10 : ℚ) - (0 : ℚ)),
        1000000 * 0.0005 * ((10 : ℚ) - (0 : ℚ)), 10 - 0, "INSTALLMENT", 1, 2⟩] ∧
    (process_payment ⟨1, 2⟩ ⟨0, 1000000, 900000, 100000⟩ 1 1005000 "WALLET" 10
        ⟨"PENDING", none, none, 0, 0, 2000000, 500000, [], "ACTIVE", true, "FUNDED", 2⟩).2.inst_status =
      "PAID" :=
  wallet_payment_balance_effects ⟨1, 2⟩ ⟨0, 1000000, 900000, 100000⟩ 1005000 10
    ⟨"PENDING", none, none, 0, 0, 2000000, 500000, [], "ACTIVE", true, "FUNDED", 2⟩
    (by norm_num) (by norm_num) (by norm_num)

/-- C5 failing run: `process_payment` never reads the installment status.
A first sufficient WALLET payment on a PENDING installment (due today, no
fee) succeeds and marks it PAID; replaying the identical call against the
resulting state succeeds again instead of failing with a conflict: the
ledger holds two transactions and the borrower has been debited twice. -/
theorem double_payment_not_prevented :
    ((process_payment ⟨1, 2⟩ ⟨100, 1000000, 900000, 100000⟩ 1 1000000 "WALLET" 100
        ⟨"PENDING", none, none, 0, 0, 5000000, 0, [], "ACTIVE", true, "FUNDED", 1⟩).1.isOk = true) ∧
    (process_payment ⟨1, 2⟩ ⟨100, 1000000, 900000, 100000⟩ 1 1000000 "WALLET" 100
        ⟨"PENDING", none, none, 0, 0, 5000000, 0, [], "ACTIVE", true, "FUNDED", 1⟩).2.inst_status =
      "PAID" ∧
    ((process_payment ⟨1, 2⟩ ⟨100, 1000000, 900000, 100000⟩ 1 1000000 "WALLET" 100
        (process_payment ⟨1, 2⟩ ⟨100, 1000000, 900000, 100000⟩ 1 1000000 "WALLET" 100
          ⟨"PENDING", none, none, 0, 0, 5000000, 0, [], "ACTIVE", true, "FUNDED", 1⟩).2).1.isOk = true) ∧
    (process_payment ⟨1, 2⟩ ⟨100, 1000000, 900000, 100000⟩ 1 1000000 "WALLET" 100
        (process_payment ⟨1, 2⟩ ⟨100, 1000000, 900000, 100000⟩ 1 1000000 "WALLET" 100
          ⟨"PENDING", none, none, 0, 0, 5000000, 0, [], "ACTIVE", true, "FUNDED", 1⟩).2).2.transactions.length =
      2 ∧
    (process_payment ⟨1, 2⟩ ⟨100, 1000000, 900000, 100000⟩ 1 1000000 "WALLET" 100
        (process_payment ⟨1, 2⟩ ⟨100, 1000000, 900000, 100000⟩ 1 1000000 "WALLET" 100
          ⟨"PENDING", none, none, 0, 0, 5000000, 0, [], "ACTIVE", true, "FUNDED", 1⟩).2).2.borrower_balance =
      5000000 - 2 * 1000000 := by
  have h1 : process_payment ⟨1, 2⟩ ⟨100, 1000000, 900000, 100000⟩ 1 1000000 "WALLET" 100
      ⟨"PENDING", none, none, 0, 0, 5000000, 0, [], "ACTIVE", true, "FUNDED", 1⟩ =
      (.ok ⟨1000000, 0, 0, "PAID", "ACTIVE", 1⟩,
       ⟨"PAID", some 1000000, some 100, 0, 0, 4000000, 1000000,
        [⟨1000000, 0, 0, "INSTALLMENT", 1, 2⟩], "ACTIVE", true, "FUNDED", 1⟩) := by
    norm_num [process_payment]
  have h2 : process_payment ⟨1, 2⟩ ⟨100, 1000000, 900000, 100000⟩ 1 1000000 "WALLET" 100
      ⟨"PAID", some 1000000, some 100, 0, 0, 4000000, 1000000,
        [⟨1000000, 0, 0, "INSTALLMENT", 1, 2⟩], "ACTIVE", true, "FUNDED", 1⟩ =
      (.ok ⟨1000000, 0, 0, "PAID", "ACTIVE", 1⟩,
       ⟨"PAID", some 1000000, some 100, 0, 0, 3000000, 2000000,
        [⟨1000000, 0, 0, "INSTALLMENT", 1, 2⟩, ⟨1000000, 0, 0, "INSTALLMENT", 1, 2⟩],
        "ACTIVE", true, "FUNDED", 1⟩) := by
    norm_num [process_payment]
  refine ⟨by rw [h1]; rfl, by rw [h1], by rw [h1, h2]; rfl, by rw [h1, h2]; rfl,
    by rw [h1, h2]; norm_num⟩

def fraud_recs : List String :=
  ["Tranh chấp liên quan đến gian lận - cần xác minh ngay",
   "Thu thập thêm bằng chứng từ cả hai bên",
   "Tạm đóng băng hợp đồng",
   "Xem xét hoàn tiền nếu xác nhận gian lận"]

def payment_none_recs : List String :=
  ["Người vay chưa thực hiện thanh toán nào",
   "Đề xuất: Yêu cầu thanh toán ngay hoặc hủy hợp đồng",
   "Xem xét hoàn tiền cho người cho vay"]

def payment_late_recs : List String :=
  ["Hơn 50% các kỳ thanh toán bị trễ",
   "Đề xuất: Điều chỉnh lịch thanh toán hoặc tăng phí trễ hạn"]

def payment_ok_recs : List String :=
  ["Lịch sử thanh toán tương đối tốt",
   "Đề xuất: Hòa giải và nhắc nhở thanh toán đúng hạn"]

def contract_terms_recs : List String :=
  ["Xem xét lại các điều khoản hợp đồng",
   "Đề xuất điều chỉnh theo thỏa thuận của hai bên",
   "Cập nhật hợp đồng nếu cần"]

def generic_recs : List String :=
  ["Thu thập thêm thông tin từ cả hai bên",
   "Xem xét hòa giải"]

/-- The rule-based part of `analyze_dispute`
(src/ai_agents/agents/dispute_resolver_new.py): severity starts at MEDIUM
with empty recommendations and is overwritten by the dispute-type branch;
the payment stats are the contract's PAID / total / late-days counts. -/
def analyze_dispute_severity (dispute_type : String)
    (paid_count total_count late_count : ℕ) : String × List String :=
  if dispute_type = "PAYMENT" then
    if paid_count = 0 then ("HIGH", payment_none_recs)
    else if (late_count : ℚ) > (total_count : ℚ) * 0.5 then ("HIGH", payment_late_recs)
    else ("LOW", payment_ok_recs)
  else if dispute_type = "FRAUD" then ("CRITICAL", fraud_recs)
  else if dispute_type = "CONTRACT_TERMS" then ("MEDIUM", contract_terms_recs)
  else ("MEDIUM", generic_recs)

/-- C8: the rule-based classifier assigns FRAUD → CRITICAL; PAYMENT with
no payment made → HIGH, else with lateCount > 0.5×totalCount → HIGH, else
→ LOW; CONTRACT_TERMS → MEDIUM; any other type → MEDIUM — each with its
fixed recommendation list. -/
theorem dispute_severity_rules (paid total late : ℕ) :
    analyze_dispute_severity "FRAUD" paid total late = ("CRITICAL", fraud_recs) ∧
    analyze_dispute_severity "PAYMENT" 0 total late = ("HIGH", payment_none_recs) ∧
    (0 < paid → (late : ℚ) > (total : ℚ) * 0.5 →
      analyze_dispute_severity "PAYMENT" paid total late = ("HIGH", payment_late_recs)) ∧
    (0 < paid → ¬ ((late : ℚ) > (total : ℚ) * 0.5) →
      analyze_dispute_severity "PAYMENT" paid total late = ("LOW", payment_ok_recs)) ∧
    analyze_dispute_severity "CONTRACT_TERMS" paid total late =
      ("MEDIUM", contract_terms_recs) ∧
    (∀ d : String, d ≠ "PAYMENT" → d ≠ "FRAUD" → d ≠ "CONTRACT_TERMS" →
      analyze_dispute_severity d paid total late = ("MEDIUM", generic_recs)) := by
  have hFP : (("FRAUD" : String) = "PAYMENT") = False := eq_false (by decide)
  have hCP : (("CONTRACT_TERMS" : String) = "PAYMENT") = False := eq_false (by decide)
  have hCF : (("CONTRACT_TERMS" : String) = "FRAUD") = False := eq_false (by decide)
  refine ⟨?_, ?_, ?_, ?_, ?_, ?_⟩
  · simp [analyze_dispute_severity, hFP]
  · simp [analyze_dispute_severity]
  · intro hpaid hlate
    have hp0 : ¬ (paid = 0) := by omega
    simp [analyze_dispute_severity, hp0, hlate]
  · intro hpaid hlate
    have hp0 : ¬ (paid = 0) := by omega
    simp [analyze_dispute_severity, hp0, hlate]
  · simp [analyze_dispute_severity, hCP, hCF]
  · intro d hd1 hd2 hd3
    simp [analyze_dispute_severity, hd1, hd2, hd3]

/-- C8 witness: concrete payment statistics hit the HIGH (late-majority)
and LOW branches as stated. -/
theorem dispute_severity_rules_witness :
    analyze_dispute_severity "PAYMENT" 1 4 3 = ("HIGH", payment_late_recs) ∧
    analyze_dispute_severity "PAYMENT" 1 4 1 = ("LOW", payment_ok_recs) ∧
    analyze_dispute_severity "FRAUD" 2 4 1 = ("CRITICAL", fraud_recs) :=
  ⟨(dispute_severity_rules 1 4 3).2.2.1 (by norm_num) (by norm_num),
   (dispute_severity_rules 1 4 1).2.2.2.1 (by norm_num) (by norm_num),
   (dispute_severity_rules 2 4 1).1⟩

/-- A lender preference profile (src/lending/models.py, as consumed by the
matching code). -/
structure MatchLender where
  user_id : ℕ
  min_amount : ℚ
  max_amount : ℚ
  min_interest_rate : ℚ
  preferred_duration_min : ℤ
  preferred_duration_max : ℤ
  risk_tolerance : String
  is_active : Bool
deriving DecidableEq, Repr

/-- The loan-request fields read by the matching code; `borrower_risk` is
the borrower's risk_level when a BorrowerRiskProfile row exists. -/
structure MatchLoan where
  borrower_id : ℕ
  amount : ℚ
  interest_rate : ℚ
  duration_months : ℤ
  borrower_risk : Option String
deriving DecidableEq, Repr

/-- `LoanMatchingService._calculate_match_score`
(src/ai_agents/services/matching.py): weighted sub-scores (amount 30,
duration 25, rate 25, risk 20), capped at 100. -/
def calculate_match_score (loan : MatchLoan) (lender : MatchLender) : ℚ :=
  let amount_score : ℚ :=
    if lender.min_amount ≤ loan.amount ∧ loan.amount ≤ lender.max_amount then 30
    else if loan.amount < lender.min_amount then 30 * (loan.amount / lender.min_amount) * 0.5
    else 30 * (lender.max_amount / loan.amount) * 0.5
  let duration_score : ℚ :=
    if lender.preferred_duration_min ≤ loan.duration_months ∧
        loan.duration_months ≤ lender.preferred_duration_max then 25
    else if loan.duration_months < lender.preferred_duration_min then
      max 0 (25 - ((lender.preferred_duration_min - loan.duration_months : ℤ) : ℚ) * 2)
    else max 0 (25 - ((loan.duration_months - lender.preferred_duration_max : ℤ) : ℚ) * 2)
  let rate_score : ℚ :=
    if lender.min_interest_rate ≤ loan.interest_rate then 25
    else max 0 (25 - (lender.min_interest_rate - loan.interest_rate) * 5)
  let risk_score : ℚ :=
    match loan.borrower_risk with
    | some risk =>
      if lender.risk_tolerance = "HIGH" then 20
      else if lender.risk_tolerance = "MEDIUM" ∧ (risk = "LOW" ∨ risk = "MEDIUM") then 20
      else if lender.risk_tolerance = "LOW" ∧ risk = "LOW" then 20
      else 20 * 0.5
    | none => 20 * 0.7
  min 100 (amount_score + duration_score + rate_score + risk_score)

/-- One entry of the list returned by `find_matching_lenders` (the
display-only reasons list is omitted). -/
structure MatchEntry where
  lender_profile : MatchLender
  match_score : ℚ
deriving DecidableEq, Repr

/-- `LoanMatchingService.find_matching_lenders`: active lenders other than
the borrower are scored; only scores ≥ 50 are kept, sorted descending. -/
def find_matching_lenders (loan : MatchLoan) (pool : List MatchLender) : List MatchEntry :=
  ((((pool.filter (fun lp => lp.is_active && lp.user_id != loan.borrower_id)).filter
      (fun lp => decide (50 ≤ calculate_match_score loan lp))).map
    (fun lp => ⟨lp, calculate_match_score loan lp⟩)).insertionSort
      (fun a b => b.match_score ≤ a.match_score))

/-- `LoanMatchingService.save_match_results`: all prior LenderMatchResult
rows for the loan are deleted and one row per match is inserted; a row is
modelled as (lender id, match_score). -/
def save_match_results (loan : MatchLoan) (found : List MatchEntry) : List (ℕ × ℚ) :=
  found.map (fun m => (m.lender_profile.user_id, m.match_score))

/-- `notify_matching_lenders` persists exactly the matches it found. -/
def notify_matching_lenders_rows (loan : MatchLoan) (pool : List MatchLender) : List (ℕ × ℚ) :=
  save_match_results loan (find_matching_lenders loan pool)

/-- Python `round(x, 1)` on the agent's combined score. -/
def pyRound1 (x : ℚ) : ℚ := (roundHE (x * 10) : ℚ) / 10

/-- `LenderMatcherAgent._calculate_match` (src/ai_agents/agents/lender_matcher_new.py):
amount and duration fit are fixed at 100 (the pool was hard-filtered),
rate fit degrades by 10 per missing percentage point, risk fit crosses
tolerance with the borrower tier (default 70 without a risk profile);
weights 0.25 / 0.30 / 0.20 / 0.25; the result is rounded to one decimal. -/
def agent_calculate_match_score (loan : MatchLoan) (lender : MatchLender) : ℚ :=
  let interest_rate_fit : ℚ :=
    if loan.interest_rate < lender.min_interest_rate then
      max 0 (100 - (lender.min_interest_rate - loan.interest_rate) * 10)
    else 100
  let risk_fit : ℚ :=
    match loan.borrower_risk with
    | some risk =>
      if lender.risk_tolerance = "LOW" then
        if risk = "HIGH" ∨ risk = "VERY_HIGH" then 30
        else if risk = "MEDIUM" then 60
        else 100
      else if lender.risk_tolerance = "MEDIUM" then
        if risk = "VERY_HIGH" then 40 else 85
      else 100
    | none => 70
  pyRound1 (100 * 0.25 + interest_rate_fit * 0.30 + 100 * 0.20 + risk_fit * 0.25)

/-- `LenderMatcherAgent._find_potential_lenders`: the hard pre-filter. -/
def agent_find_potential_lenders (loan : MatchLoan) (pool : List MatchLender) : List MatchLender :=
  pool.filter (fun lp => lp.is_active &&
    decide (lp.min_amount ≤ loan.amount) && decide (loan.amount ≤ lp.max_amount) &&
    decide (lp.preferred_duration_min ≤ loan.duration_months) &&
    decide (loan.duration_months ≤ lp.preferred_duration_max) &&
    lp.user_id != loan.borrower_id)

/-- `LenderMatcherAgent.process` persistence: scores ≥ 50 are kept, sorted
descending, and the top 10 replace the prior LenderMatchResult rows. -/
def agent_process_persisted (loan : MatchLoan) (pool : List MatchLender) : List (ℕ × ℚ) :=
  ((((agent_find_potential_lenders loan pool).filter
      (fun lp => decide (50 ≤ agent_calculate_match_score loan lp))).map
    (fun lp => (lp.user_id, agent_calculate_match_score loan lp))).insertionSort
      (fun a b => b.2 ≤ a.2)).take 10

/-- A loan / lender pair whose service match score is exactly 50:
amount in range (30) + duration 10 months short (5) + rate 4 points short
(5) + LOW tolerance against a MEDIUM borrower (10). -/
def loan50 : MatchLoan := ⟨1, 50, 10, 12, some "MEDIUM"⟩

def lender50 : MatchLender := ⟨2, 10, 100, 14, 22, 30, "LOW", true⟩

/-- Membership in the ranked list returned by `find_matching_lenders`:
exactly the active, non-self lenders of the pool whose score is ≥ 50,
paired with their score. -/
lemma find_matching_lenders_mem_iff (loan : MatchLoan) (pool : List MatchLender)
    (e : MatchEntry) :
    e ∈ find_matching_lenders loan pool ↔
      (e.lender_profile ∈ pool ∧ e.lender_profile.is_active = true ∧
       e.lender_profile.user_id ≠ loan.borrower_id ∧
       e.match_score = calculate_match_score loan e.lender_profile ∧
       50 ≤ e.match_score) := by
  obtain ⟨lp0, s0⟩ := e
  simp only [find_matching_lenders, List.mem_insertionSort, List.mem_map,
    List.mem_filter, Bool.and_eq_true, bne_iff_ne, decide_eq_true_eq]
  constructor
  · rintro ⟨lp, ⟨⟨hpool, hact, hne⟩, h50⟩, heq⟩
    obtain ⟨h1, h2⟩ := MatchEntry.mk.inj heq
    subst h1
    subst h2
    exact ⟨hpool, hact, hne, rfl, h50⟩
  · rintro ⟨hpool, hact, hne, hs, h50⟩
    exact ⟨lp0, ⟨⟨hpool, hact, hne⟩, hs ▸ h50⟩, by rw [hs]⟩

/-- C3: both matching paths surface and persist only pairs scoring at
least 50.  (1) The service's ranked list contains exactly the active
non-self lenders scoring ≥ 50; (2) every LenderMatchResult row persisted
by `notify_matching_lenders` has score ≥ 50; (3) every row persisted by
the agent's `process` has score ≥ 50; (4) a pair scoring exactly 50 is
returned and persisted. -/
theorem match_threshold_fifty :
    (∀ (loan : MatchLoan) (pool : List MatchLender) (e : MatchEntry),
      e ∈ find_matching_lenders loan pool ↔
        (e.lender_profile ∈ pool ∧ e.lender_profile.is_active = true ∧
         e.lender_profile.user_id ≠ loan.borrower_id ∧
         e.match_score = calculate_match_score loan e.lender_profile ∧
         50 ≤ e.match_score)) ∧
    (∀ (loan : MatchLoan) (pool : List MatchLender) (r : ℕ × ℚ),
      r ∈ notify_matching_lenders_rows loan pool → 50 ≤ r.2) ∧
    (∀ (loan : MatchLoan) (pool : List MatchLender) (r : ℕ × ℚ),
      r ∈ agent_process_persisted loan pool → 50 ≤ r.2) ∧
    calculate_match_score loan50 lender50 = 50 ∧
    (⟨lender50, 50⟩ : MatchEntry) ∈ find_matching_lenders loan50 [lender50] ∧
    (lender50.user_id, (50 : ℚ)) ∈ notify_matching_lenders_rows loan50 [lender50] := by
  have hLH : (("LOW" : String) = "HIGH") = False := eq_false (by decide)
  have hLM : (("LOW" : String) = "MEDIUM") = False := eq_false (by decide)
  have hML : (("MEDIUM" : String) = "LOW") = False := eq_false (by decide)
  have hscore : calculate_match_score loan50 lender50 = 50 := by
    norm_num [calculate_match_score, loan50, lender50, hLH, hLM, hML]
  have hemem : (⟨lender50, 50⟩ : MatchEntry) ∈ find_matching_lenders loan50 [lender50] := by
    apply (find_matching_lenders_mem_iff loan50 [lender50] ⟨lender50, 50⟩).mpr
    refine ⟨by simp, rfl, by decide, ?_, by norm_num⟩
    simpa using hscore.symm
  refine ⟨find_matching_lenders_mem_iff, ?_, ?_, hscore, hemem, ?_⟩
  · intro loan pool r hr
    obtain ⟨m, hm, rfl⟩ := List.mem_map.mp hr
    have hprop := (find_matching_lenders_mem_iff loan pool m).mp hm
    simpa using hprop.2.2.2.2
  · intro loan pool r hr
    have hr2 := List.take_subset 10 _ hr
    rw [List.mem_insertionSort] at hr2
    obtain ⟨lp, hlp, rfl⟩ := List.mem_map.mp hr2
    have h50 := (List.mem_filter.mp hlp).2
    simpa using of_decide_eq_true h50
  · exact List.mem_map.mpr ⟨⟨lender50, 50⟩, hemem, rfl⟩

/-- C3 witness: the second conjunct applied to the concrete exactly-50
row persisted for `loan50`. -/
theorem match_threshold_fifty_witness :
    (50 : ℚ) ≤ (lender50.user_id, (50 : ℚ)).2 :=
  match_threshold_fifty.2.1 loan50 [lender50] (lender50.user_id, (50 : ℚ))
    match_threshold_fifty.2.2.2.2.2

/-- C2 witness: the amended score/tier characterization at a concrete
VERIFIED borrower with income 12,000,000, one past loan, and a
60,000,000 / 12-month request. -/
theorem credit_score_trunc_clamped_and_tiers_witness :
    (assess_risk ⟨"VERIFIED", none, some 12000000⟩ 1 (some ⟨60000000, 12⟩)).1 =
      min 1000 (max 0 (pyTrunc (10 * (kyc_factor ⟨"VERIFIED", none, some 12000000⟩ * 0.30 +
        income_stability_factor ⟨"VERIFIED", none, some 12000000⟩ * 0.25 +
        loan_history_factor 1 * 0.20 +
        debt_factor ⟨"VERIFIED", none, some 12000000⟩ (some ⟨60000000, 12⟩) * 0.25)))) ∧
    0 ≤ (assess_risk ⟨"VERIFIED", none, some 12000000⟩ 1 (some ⟨60000000, 12⟩)).1 ∧
    (assess_risk ⟨"VERIFIED", none, some 12000000⟩ 1 (some ⟨60000000, 12⟩)).1 ≤ 1000 ∧
    ((assess_risk ⟨"VERIFIED", none, some 12000000⟩ 1 (some ⟨60000000, 12⟩)).2 = "VERY_LOW" ↔
      800 ≤ (assess_risk ⟨"VERIFIED", none, some 12000000⟩ 1 (some ⟨60000000, 12⟩)).1) ∧
    ((assess_risk ⟨"VERIFIED", none, some 12000000⟩ 1 (some ⟨60000000, 12⟩)).2 = "LOW" ↔
      650 ≤ (assess_risk ⟨"VERIFIED", none, some 12000000⟩ 1 (some ⟨60000000, 12⟩)).1 ∧
      (assess_risk ⟨"VERIFIED", none, some 12000000⟩ 1 (some ⟨60000000, 12⟩)).1 < 800) ∧
    ((assess_risk ⟨"VERIFIED", none, some 12000000⟩ 1 (some ⟨60000000, 12⟩)).2 = "MEDIUM" ↔
      500 ≤ (assess_risk ⟨"VERIFIED", none, some 12000000⟩ 1 (some ⟨60000000, 12⟩)).1 ∧
      (assess_risk ⟨"VERIFIED", none, some 12000000⟩ 1 (some ⟨60000000, 12⟩)).1 < 650) ∧
    ((assess_risk ⟨"VERIFIED", none, some 12000000⟩ 1 (some ⟨60000000, 12⟩)).2 = "HIGH" ↔
      350 ≤ (assess_risk ⟨"VERIFIED", none, some 12000000⟩ 1 (some ⟨60000000, 12⟩)).1 ∧
      (assess_risk ⟨"VERIFIED", none, some 12000000⟩ 1 (some ⟨60000000, 12⟩)).1 < 500) ∧
    ((assess_risk ⟨"VERIFIED", none, some 12000000⟩ 1 (some ⟨60000000, 12⟩)).2 = "VERY_HIGH" ↔
      (assess_risk ⟨"VERIFIED", none, some 12000000⟩ 1 (some ⟨60000000, 12⟩)).1 < 350) :=
  credit_score_trunc_clamped_and_tiers ⟨"VERIFIED", none, some 12000000⟩ 1
    (some ⟨60000000, 12⟩) (by intro lr h; cases h; norm_num)
